import Mathlib

/-!
Verification of the apiIMC service (src/main.py) against its specification.

The service is a FastAPI application with
  * a pure BMI classifier `classificar_imc`,
  * a security middleware `block_scanners` matching the request URL against
    `SUSPICIOUS_PATTERNS` and logging + short-circuiting with 404 on a match,
  * a `security_headers` middleware stamping three hardening headers on
    every outgoing response (registered last, hence outermost in Starlette),
  * three GET routes (`/`, `/imc`, `/health`) and a catch-all route for the
    methods POST/PUT/DELETE/PATCH/HEAD that logs and answers a bare 404.

Numeric values are modelled as rationals: every decimal literal appearing in
the Python source (18.5, 24.9, …) and every decimal query value is exactly
representable, and the branch comparisons coincide with the float
comparisons the source performs on such inputs.  The audit-log file and the
console are modelled as lists of entries inside an explicit state record;
wall-clock timestamps and the best-effort GeoIP enrichment (environment
inputs, absent without the optional database file) are not part of the
entry model.  The state also carries two observation-only traces recording
which route handlers ran and which values reached the classifier, so that
"the handler never executes" and "the classifier is never invoked" are
directly statable; they influence no behaviour.
-/

namespace ApiIMC

/-- Result of the classifier: the pair of JSON fields returned by
`classificar_imc` in src/main.py. -/
structure Classificacao where
  classificacao : String
  obesidade_grau : Nat
deriving DecidableEq, Repr

/-- Embedding of `classificar_imc` (src/main.py lines 113–123): the branch
structure is kept exactly, including the redundant lower bounds and the
final `else`. -/
def classificar_imc (imc : ℚ) : Classificacao :=
  if imc < 18.5 then ⟨"Magreza", 0⟩
  else if 18.5 ≤ imc ∧ imc ≤ 24.9 then ⟨"Normal", 0⟩
  else if 25.0 ≤ imc ∧ imc ≤ 29.9 then ⟨"Sobrepeso", 1⟩
  else if 30.0 ≤ imc ∧ imc ≤ 39.9 then ⟨"Obesidade", 2⟩
  else ⟨"Obesidade Grave", 3⟩

end ApiIMC

namespace ApiIMC

/-! ### HTTP pipeline model -/

/-- An inbound HTTP request as seen by the FastAPI app: method, the URL
components used by the middleware and the routes, the client address and
the headers read by `log_blocked_request`. -/
structure Request where
  method : String
  scheme : String
  host : String
  path : String
  queryParams : List (String × String)
  clientHost : String
  userAgent : String
  referer : Option String
  xForwardedFor : Option String
deriving DecidableEq, Repr

/-- Raw query string as it appears in `request.url.query`. -/
def rawQuery (ps : List (String × String)) : String :=
  String.intercalate "&" (ps.map fun p => p.1 ++ "=" ++ p.2)

/-- Full URL string `str(request.url)` that `block_scanners` matches
against: scheme, host, path, and the query string when present. -/
def urlString (r : Request) : String :=
  r.scheme ++ "://" ++ r.host ++ r.path ++
    (if r.queryParams.isEmpty then "" else "?" ++ rawQuery r.queryParams)

/-- The literal alternatives of the `SUSPICIOUS_PATTERNS` regular
expression (src/main.py lines 30–33). -/
def SUSPICIOUS_PATTERNS : List String :=
  ["wp-", ".env", ".git", "phpinfo", "cmd=", "exec=", "shell=", "command=",
   "/etc/passwd", ".aws"]

/-- Whether `needle` occurs as a contiguous subsequence of `hay`. -/
def containsSeq (needle hay : List Char) : Bool :=
  match hay with
  | [] => needle.isEmpty
  | c :: t => needle.isPrefixOf (c :: t) || containsSeq needle t

/-- `SUSPICIOUS_PATTERNS.search(target)` with `re.IGNORECASE`: the
alternatives are literal lowercase ASCII strings, so the regex search is
exactly a case-insensitive substring test for one of them. -/
def suspicious_search (target : String) : Bool :=
  SUSPICIOUS_PATTERNS.any fun p =>
    containsSeq p.toList (target.toList.map Char.toLower)

/-- One audit entry as built by `log_blocked_request` (src/main.py lines
61–84), restricted to the request-derived fields; the wall-clock
`timestamp` and the best-effort `geo` enrichment are environment inputs
outside the model. -/
structure Entry where
  ip : String
  method : String
  path : String
  query : String
  user_agent : String
  referer : Option String
  x_forwarded_for : Option String
deriving DecidableEq, Repr

/-- Observable state threaded through one request: the append-only
`blocked_ips.json` file and the console stream written by
`log_blocked_request`, plus two observation-only traces (route handlers
that ran, values passed to the classifier) used to state that a handler or
the classifier was never invoked. -/
structure LogState where
  fileLog : List Entry
  console : List Entry
  handlersRun : List String
  classifiedValues : List ℚ
deriving Repr

/-- The entry `log_blocked_request` builds for a request. -/
def mkEntry (r : Request) : Entry :=
  { ip := r.clientHost
    method := r.method
    path := r.path
    query := rawQuery r.queryParams
    user_agent := r.userAgent
    referer := r.referer
    x_forwarded_for := r.xForwardedFor }

/-- Embedding of `log_blocked_request`: appends one JSON line to the log
file and prints the same entry to the console. -/
def log_blocked_request (r : Request) (s : LogState) : LogState :=
  { s with
    fileLog := s.fileLog ++ [mkEntry r]
    console := s.console ++ [mkEntry r] }

/-- Response bodies the app can produce, one constructor per JSON shape in
the source. -/
inductive Body where
  | empty
  | jsonDetail (detail : String)
  | rootInfo
  | imcResult (imc : ℚ) (classificacao : String) (obesidade_grau : Nat)
  | healthOk
  | validationError
deriving DecidableEq, Repr

/-- An outgoing HTTP response: status, header list, body. -/
structure Response where
  status : Nat
  headers : List (String × String)
  body : Body
deriving DecidableEq, Repr

end ApiIMC

namespace ApiIMC

/-! ### Validation, routes, middleware -/

/-- First query parameter with the given key, as Starlette's
`QueryParams.get`. -/
def getParam (ps : List (String × String)) (k : String) : Option String :=
  (ps.find? fun p => p.1 == k).map fun p => p.2

/-- Split a character list on the `'.'` separator, accumulating the
current segment. -/
def splitDotAux : List Char → List Char → List (List Char)
  | [], acc => [acc.reverse]
  | c :: t, acc =>
    if c = '.' then acc.reverse :: splitDotAux t []
    else splitDotAux t (c :: acc)

/-- Segments of a character list between `'.'` separators. -/
def splitDot (cs : List Char) : List (List Char) := splitDotAux cs []

/-- Value of one ASCII decimal digit; `none` for any other character. -/
def digitVal? (c : Char) : Option Nat :=
  if c = '0' then some 0 else if c = '1' then some 1 else if c = '2' then some 2
  else if c = '3' then some 3 else if c = '4' then some 4 else if c = '5' then some 5
  else if c = '6' then some 6 else if c = '7' then some 7 else if c = '8' then some 8
  else if c = '9' then some 9 else none

/-- Decimal digit string to `Nat`; `none` on an empty string or any
non-digit character. -/
def digitsVal? (cs : List Char) : Option Nat :=
  if cs.isEmpty then none
  else
    cs.foldl (fun acc c => acc.bind fun n => (digitVal? c).map fun d => n * 10 + d)
      (some 0)

/-- Plain decimal forms accepted by Python's `float()` as pydantic applies
it to the `valor` query value: optional sign, digits, optional fractional
part.  (Exponent/inf/nan spellings are irrelevant to the claims and not
modelled.) -/
def parseFloat? (s : String) : Option ℚ :=
  let cs := s.toList
  let sgn : ℚ := if cs.head? = some '-' then -1 else 1
  let body := if cs.head? = some '-' ∨ cs.head? = some '+' then cs.tail else cs
  match splitDot body with
  | [i] => (digitsVal? i).map fun n => sgn * n
  | [i, f] =>
    if i.isEmpty && f.isEmpty then none
    else
      (digitsVal? (if i.isEmpty then ['0'] else i)).bind fun ni =>
        (digitsVal? (if f.isEmpty then ['0'] else f)).map fun nf =>
          sgn * ((ni : ℚ) + (nf : ℚ) / (10 : ℚ) ^ f.length)
  | _ => none

/-- Embedding of the `only_valor` dependency (src/main.py lines 128–129):
`valor: float = Query(..., gt=0, le=200)`.  `error` is FastAPI's 422
rejection: parameter missing, not parseable as a float, not `> 0`, or not
`≤ 200`. -/
def only_valor (ps : List (String × String)) : Except Unit ℚ :=
  match getParam ps "valor" with
  | none => Except.error ()
  | some str =>
    match parseFloat? str with
    | none => Except.error ()
    | some v => if 0 < v ∧ v ≤ 200 then Except.ok v else Except.error ()

/-- Embedding of the `root` handler (src/main.py lines 134–142): any query
parameter raises `HTTPException(404)`, otherwise the static payload. -/
def root (r : Request) (s : LogState) : Response × LogState :=
  let s := { s with handlersRun := s.handlersRun ++ ["root"] }
  if !r.queryParams.isEmpty then (⟨404, [], Body.jsonDetail "Not Found"⟩, s)
  else (⟨200, [], Body.rootInfo⟩, s)

/-- Embedding of the `calcular_imc` handler (src/main.py lines 144–146),
reached only after `only_valor` succeeded: echoes `valor` and spreads the
classifier's two fields into the body. -/
def calcular_imc (valor : ℚ) (s : LogState) : Response × LogState :=
  let s := { s with
    handlersRun := s.handlersRun ++ ["calcular_imc"]
    classifiedValues := s.classifiedValues ++ [valor] }
  (⟨200, [],
    Body.imcResult valor (classificar_imc valor).classificacao
      (classificar_imc valor).obesidade_grau⟩, s)

/-- Embedding of the `health_check` handler (src/main.py lines 148–152):
404 unless the client address is exactly "127.0.0.1". -/
def health_check (r : Request) (s : LogState) : Response × LogState :=
  let s := { s with handlersRun := s.handlersRun ++ ["health_check"] }
  if r.clientHost ≠ "127.0.0.1" then (⟨404, [], Body.jsonDetail "Not Found"⟩, s)
  else (⟨200, [], Body.healthOk⟩, s)

/-- The methods of the catch-all route (src/main.py line 157). -/
def WRITE_METHODS : List String := ["POST", "PUT", "DELETE", "PATCH", "HEAD"]

/-- Embedding of the `method_not_allowed` catch-all handler (src/main.py
lines 157–160): logs the request and returns a bare 404. -/
def method_not_allowed (r : Request) (s : LogState) : Response × LogState :=
  let s := { s with handlersRun := s.handlersRun ++ ["method_not_allowed"] }
  (⟨404, [], Body.empty⟩, log_blocked_request r s)

/-- FastAPI routing over the registered routes in registration order.  The
three GET routes match only method GET (FastAPI's `APIRoute` does not add
HEAD to GET routes); the catch-all `/{path:path}` route matches every path
for the five listed methods; a method matching no route on its path gets
Starlette's default 405. -/
def route_dispatch (r : Request) (s : LogState) : Response × LogState :=
  if r.method = "GET" ∧ r.path = "/" then root r s
  else if r.method = "GET" ∧ r.path = "/imc" then
    match only_valor r.queryParams with
    | Except.error _ => (⟨422, [], Body.validationError⟩, s)
    | Except.ok v => calcular_imc v s
  else if r.method = "GET" ∧ r.path = "/health" then health_check r s
  else if r.method ∈ WRITE_METHODS then method_not_allowed r s
  else (⟨405, [], Body.jsonDetail "Method Not Allowed"⟩, s)

/-- Starlette `MutableHeaders.__setitem__`: replace any existing value for
the key, appending the new pair. -/
def setHeader (hs : List (String × String)) (k v : String) :
    List (String × String) :=
  (hs.filter fun p => p.1 != k) ++ [(k, v)]

/-- First header value for a key. -/
def getHeader (hs : List (String × String)) (k : String) : Option String :=
  (hs.find? fun p => p.1 == k).map fun p => p.2

/-- Embedding of the `block_scanners` middleware (src/main.py lines
89–97): on a pattern match, log and short-circuit with a JSON 404 without
calling the rest of the app; otherwise pass through. -/
def block_scanners (call_next : Request → LogState → Response × LogState)
    (r : Request) (s : LogState) : Response × LogState :=
  if suspicious_search (urlString r) then
    (⟨404, [], Body.jsonDetail "Not found"⟩, log_blocked_request r s)
  else call_next r s

/-- Embedding of the `security_headers` middleware (src/main.py lines
102–108): run the inner app, then set the three hardening headers on its
response. -/
def security_headers (call_next : Request → LogState → Response × LogState)
    (r : Request) (s : LogState) : Response × LogState :=
  let out := call_next r s
  ({ out.1 with
      headers :=
        setHeader
          (setHeader (setHeader out.1.headers "X-Content-Type-Options" "nosniff")
            "X-Frame-Options" "DENY")
          "Referrer-Policy" "no-referrer" },
    out.2)

/-- The whole hardened application.  `security_headers` is registered
last, hence outermost in Starlette's middleware stack; it wraps
`block_scanners`, which wraps routing. -/
def app (r : Request) (s : LogState) : Response × LogState :=
  security_headers (block_scanners route_dispatch) r s

end ApiIMC

namespace ApiIMC

/-! ### Concrete fixtures used by witnesses -/

/-- Fresh per-process state: empty log file, console and traces. -/
def emptyState : LogState := ⟨[], [], [], []⟩

/-- A scanner probe: GET /wp-admin from a remote address. -/
def scanReq : Request :=
  ⟨"GET", "http", "testserver", "/wp-admin", [], "8.8.8.8", "curl", none, none⟩

/-- A POST to an arbitrary path from a remote address. -/
def postReq : Request :=
  ⟨"POST", "http", "testserver", "/detetive", [], "8.8.8.8", "curl", none, none⟩

/-- A valid classification request: GET /imc?valor=25.5. -/
def imcReq : Request :=
  ⟨"GET", "http", "testserver", "/imc", [("valor", "25.5")], "8.8.8.8", "curl",
    none, none⟩

/-- An out-of-range classification request: GET /imc?valor=201. -/
def imcBadReq : Request :=
  ⟨"GET", "http", "testserver", "/imc", [("valor", "201")], "8.8.8.8", "curl",
    none, none⟩

/-- GET / with a query parameter. -/
def rootParamReq : Request :=
  ⟨"GET", "http", "testserver", "/", [("foo", "bar")], "8.8.8.8", "curl",
    none, none⟩

/-- GET /health from the loopback address. -/
def healthLocalReq : Request :=
  ⟨"GET", "http", "testserver", "/health", [], "127.0.0.1", "curl", none, none⟩

/-- GET /health from a remote address. -/
def healthRemoteReq : Request :=
  ⟨"GET", "http", "testserver", "/health", [], "8.8.8.8", "curl", none, none⟩

end ApiIMC

namespace ApiIMC

/-! ### Supporting lemmas -/

/-- On a suspicious URL the app answers the middleware's JSON 404 and the
state is exactly one `log_blocked_request` append. -/
lemma app_susp (r : Request) (s : LogState)
    (hs : suspicious_search (urlString r) = true) :
    (app r s).1.status = 404 ∧ (app r s).1.body = Body.jsonDetail "Not found" ∧
      (app r s).2 = log_blocked_request r s := by
  simp [app, security_headers, block_scanners, hs]

/-- On a non-suspicious URL the app's status, body and final state are the
router's; only the headers are altered (by `security_headers`). -/
lemma app_pass (r : Request) (s : LogState)
    (hs : suspicious_search (urlString r) = false) :
    (app r s).1.status = (route_dispatch r s).1.status ∧
      (app r s).1.body = (route_dispatch r s).1.body ∧
      (app r s).2 = (route_dispatch r s).2 := by
  simp [app, security_headers, block_scanners, hs]

/-- GET / resolves to the `root` handler. -/
lemma dispatch_root (r : Request) (s : LogState)
    (hm : r.method = "GET") (hp : r.path = "/") :
    route_dispatch r s = root r s := by
  simp [route_dispatch, hm, hp]

/-- GET /imc resolves to validation and then the `calcular_imc` handler. -/
lemma dispatch_imc (r : Request) (s : LogState)
    (hm : r.method = "GET") (hp : r.path = "/imc") :
    route_dispatch r s =
      match only_valor r.queryParams with
      | Except.error _ => (⟨422, [], Body.validationError⟩, s)
      | Except.ok v => calcular_imc v s := by
  simp [route_dispatch, hm, hp]

/-- GET /health resolves to the `health_check` handler. -/
lemma dispatch_health (r : Request) (s : LogState)
    (hm : r.method = "GET") (hp : r.path = "/health") :
    route_dispatch r s = health_check r s := by
  simp [route_dispatch, hm, hp]

/-- Any of the five write methods resolves to the catch-all handler on
every path. -/
lemma dispatch_write (r : Request) (s : LogState)
    (hm : r.method ∈ WRITE_METHODS) :
    route_dispatch r s = method_not_allowed r s := by
  have h1 : r.method ≠ "GET" := by
    simp [WRITE_METHODS] at hm
    rcases hm with h | h | h | h | h <;> simp [h]
  simp [route_dispatch, h1, hm]

/-- Routing a GET request never writes the audit log or the console: only
the catch-all handler logs, and it is unreachable for GET. -/
lemma dispatch_get_unlogged (r : Request) (s : LogState)
    (hm : r.method = "GET") :
    (route_dispatch r s).2.fileLog = s.fileLog ∧
      (route_dispatch r s).2.console = s.console := by
  unfold route_dispatch
  split_ifs with h1 h2 h3 h4
  · unfold root
    split_ifs <;> simp
  · cases h : only_valor r.queryParams <;> simp [calcular_imc]
  · unfold health_check
    split_ifs <;> simp
  · rw [hm] at h4
    simp [WRITE_METHODS] at h4
  · simp

/-- Every branch of the router returns a response with an empty header
list; headers are only added by `security_headers`. -/
lemma dispatch_headers_nil (r : Request) (s : LogState) :
    (route_dispatch r s).1.headers = [] := by
  unfold route_dispatch
  split_ifs with h1 h2 h3 h4
  · unfold root
    split_ifs <;> rfl
  · cases h : only_valor r.queryParams <;> simp [calcular_imc]
  · unfold health_check
    split_ifs <;> rfl
  · rfl
  · rfl

/-- The inner app (pattern middleware around routing) also always returns
an empty header list. -/
lemma inner_headers_nil (r : Request) (s : LogState) :
    ((block_scanners route_dispatch) r s).1.headers = [] := by
  by_cases hs : suspicious_search (urlString r) = true
  · simp [block_scanners, hs]
  · have hs' : suspicious_search (urlString r) = false := by simpa using hs
    simp [block_scanners, hs', dispatch_headers_nil]

end ApiIMC
namespace ApiIMC

/-! ### Classifier claims -/

/-- C1 counterexample: the value 24.95 lies strictly between the Normal
range upper bound 24.9 and the Sobrepeso range lower bound 25.0, yet
`classificar_imc` assigns it to "Obesidade Grave" (grade 3), a
non-adjacent category — the five ranges are not contiguous and the claim's
gap-free partition fails. -/
theorem classificar_imc_gap_cex :
    (24.9 : ℚ) < 24.95 ∧ (24.95 : ℚ) < 25.0 ∧
      classificar_imc 24.95 = ⟨"Obesidade Grave", 3⟩ := by
  refine ⟨by norm_num, by norm_num, ?_⟩
  norm_num [classificar_imc]

/-- C1 (amended): `classificar_imc` is total and maps the five named ranges
to their categories, but the ranges are disjoint rather than contiguous:
every value in the gaps (24.9,25.0), (29.9,30.0) and (39.9,40.0) falls
through all branches and is assigned "Obesidade Grave" (grade 3), a
non-adjacent category for the first two gaps. -/
theorem classificar_imc_partition :
    (∀ v : ℚ, v < 18.5 → classificar_imc v = ⟨"Magreza", 0⟩) ∧
    (∀ v : ℚ, 18.5 ≤ v → v ≤ 24.9 → classificar_imc v = ⟨"Normal", 0⟩) ∧
    (∀ v : ℚ, 25.0 ≤ v → v ≤ 29.9 → classificar_imc v = ⟨"Sobrepeso", 1⟩) ∧
    (∀ v : ℚ, 30.0 ≤ v → v ≤ 39.9 → classificar_imc v = ⟨"Obesidade", 2⟩) ∧
    (∀ v : ℚ, 40.0 ≤ v → classificar_imc v = ⟨"Obesidade Grave", 3⟩) ∧
    (∀ v : ℚ, 24.9 < v → v < 25.0 → classificar_imc v = ⟨"Obesidade Grave", 3⟩) ∧
    (∀ v : ℚ, 29.9 < v → v < 30.0 → classificar_imc v = ⟨"Obesidade Grave", 3⟩) ∧
    (∀ v : ℚ, 39.9 < v → v < 40.0 → classificar_imc v = ⟨"Obesidade Grave", 3⟩) := by
  refine ⟨fun v h => ?_, fun v h1 h2 => ?_, fun v h1 h2 => ?_, fun v h1 h2 => ?_,
    fun v h => ?_, fun v h1 h2 => ?_, fun v h1 h2 => ?_, fun v h1 h2 => ?_⟩ <;>
    unfold classificar_imc
  · rw [if_pos h]
  · rw [if_neg (by linarith), if_pos ⟨h1, h2⟩]
  · rw [if_neg (by linarith), if_neg (fun h => by linarith [h.2]), if_pos ⟨by linarith, h2⟩]
  · rw [if_neg (by linarith), if_neg (fun h => by linarith [h.2]),
      if_neg (fun h => by linarith [h.2]), if_pos ⟨by linarith, h2⟩]
  · rw [if_neg (by linarith), if_neg (fun h => by linarith [h.2]),
      if_neg (fun h => by linarith [h.2]), if_neg (fun h => by linarith [h.2])]
  · rw [if_neg (by linarith), if_neg (fun h => by linarith [h.2]),
      if_neg (fun h => by linarith [h.1]), if_neg (fun h => by linarith [h.1])]
  · rw [if_neg (by linarith), if_neg (fun h => by linarith [h.2]),
      if_neg (fun h => by linarith [h.2]), if_neg (fun h => by linarith [h.1])]
  · rw [if_neg (by linarith), if_neg (fun h => by linarith [h.2]),
      if_neg (fun h => by linarith [h.2]), if_neg (fun h => by linarith [h.2])]

/-- Witness for the amended C1 partition theorem at the concrete inputs 20
(Normal range) and 39.95 (a gap value classified "Obesidade Grave"). -/
theorem classificar_imc_partition_witness :
    classificar_imc 20 = ⟨"Normal", 0⟩ ∧
      classificar_imc 39.95 = ⟨"Obesidade Grave", 3⟩ :=
  ⟨classificar_imc_partition.2.1 20 (by norm_num) (by norm_num),
   classificar_imc_partition.2.2.2.2.2.2.2 39.95 (by norm_num) (by norm_num)⟩

/-- C7: the classifier's range boundaries are exact — 18.5 and 24.9 give
Normal, 25.0 and 29.9 give Sobrepeso, 30.0 and 39.9 give Obesidade, and
40.0 gives Obesidade Grave. -/
theorem classificar_imc_boundaries :
    classificar_imc 18.5 = ⟨"Normal", 0⟩ ∧
    classificar_imc 24.9 = ⟨"Normal", 0⟩ ∧
    classificar_imc 25.0 = ⟨"Sobrepeso", 1⟩ ∧
    classificar_imc 29.9 = ⟨"Sobrepeso", 1⟩ ∧
    classificar_imc 30.0 = ⟨"Obesidade", 2⟩ ∧
    classificar_imc 39.9 = ⟨"Obesidade", 2⟩ ∧
    classificar_imc 40.0 = ⟨"Obesidade Grave", 3⟩ := by
  refine ⟨?_, ?_, ?_, ?_, ?_, ?_, ?_⟩ <;> norm_num [classificar_imc]

/-- C10: `classificar_imc` is a total function with no internal validation:
every non-positive input, and more generally every input strictly below
18.5, is classified "Magreza" with grade 0. -/
theorem classificar_imc_total_below :
    (∀ v : ℚ, v ≤ 0 → classificar_imc v = ⟨"Magreza", 0⟩) ∧
    (∀ v : ℚ, v < 18.5 → classificar_imc v = ⟨"Magreza", 0⟩) := by
  have h : ∀ v : ℚ, v < 18.5 → classificar_imc v = ⟨"Magreza", 0⟩ := by
    intro v hv
    unfold classificar_imc
    rw [if_pos hv]
  exact ⟨fun v hv => h v (by linarith), h⟩

/-- Witness for C10 at the concrete inputs -3 and 0, both classified
"Magreza" with grade 0. -/
theorem classificar_imc_total_below_witness :
    classificar_imc (-3) = ⟨"Magreza", 0⟩ ∧ classificar_imc 0 = ⟨"Magreza", 0⟩ :=
  ⟨classificar_imc_total_below.1 (-3) (by norm_num),
   classificar_imc_total_below.1 0 le_rfl⟩

end ApiIMC


namespace ApiIMC

/-- C2: a request whose full URL matches the suspicious pattern set gets
exactly one audit entry appended to the log file, the same entry emitted to
the console, a 404 with the generic body, and no route handler or
classifier invocation; a request whose URL does not match is passed through
to routing unchanged (same status, body and state as routing alone). -/
theorem block_scanners_spec :
    ∀ (r : Request) (s : LogState),
      (suspicious_search (urlString r) = true →
        (app r s).1.status = 404 ∧
        (app r s).1.body = Body.jsonDetail "Not found" ∧
        (app r s).2.fileLog = s.fileLog ++ [mkEntry r] ∧
        (app r s).2.console = s.console ++ [mkEntry r] ∧
        (app r s).2.handlersRun = s.handlersRun ∧
        (app r s).2.classifiedValues = s.classifiedValues) ∧
      (suspicious_search (urlString r) = false →
        (app r s).1.status = (route_dispatch r s).1.status ∧
        (app r s).1.body = (route_dispatch r s).1.body ∧
        (app r s).2 = (route_dispatch r s).2) := by
  intro r s
  refine ⟨fun hs => ?_, fun hs => app_pass r s hs⟩
  have h := app_susp r s hs
  rw [h.2.2]
  exact ⟨h.1, h.2.1, rfl, rfl, rfl, rfl⟩

/-- Witness for C2 at the concrete scanner probe GET /wp-admin on a fresh
state. -/
theorem block_scanners_spec_witness :
    (app scanReq emptyState).1.status = 404 ∧
      (app scanReq emptyState).2.fileLog = [mkEntry scanReq] ∧
      (app scanReq emptyState).2.handlersRun = [] := by
  have h := (block_scanners_spec scanReq emptyState).1 (by decide)
  exact ⟨h.1, h.2.2.1, h.2.2.2.2.1⟩

end ApiIMC

namespace ApiIMC

/-- C3: every request using POST, PUT, DELETE, PATCH or HEAD, on any path,
gets one audit entry appended via the same `log_blocked_request` mechanism
and a 404; when the URL is not pattern-blocked the 404 is the catch-all
route's bare response.  GET requests, in contrast, are never logged by the
catch-all (GET routing is unaffected). -/
theorem method_denylist_spec :
    (∀ (r : Request) (s : LogState), r.method ∈ WRITE_METHODS →
      (app r s).1.status = 404 ∧
      (app r s).2.fileLog = s.fileLog ++ [mkEntry r] ∧
      (app r s).2.console = s.console ++ [mkEntry r] ∧
      (suspicious_search (urlString r) = false → (app r s).1.body = Body.empty)) ∧
    (∀ (r : Request) (s : LogState), r.method = "GET" →
      suspicious_search (urlString r) = false →
      (app r s).2.fileLog = s.fileLog ∧ (app r s).2.console = s.console) := by
  constructor
  · intro r s hm
    by_cases hs : suspicious_search (urlString r) = true
    · have h := app_susp r s hs
      rw [h.2.2]
      exact ⟨h.1, rfl, rfl, fun hf => by rw [hf] at hs; cases hs⟩
    · have hs' : suspicious_search (urlString r) = false := by simpa using hs
      have h := app_pass r s hs'
      rw [h.1, h.2.1, h.2.2, dispatch_write r s hm]
      exact ⟨rfl, rfl, rfl, fun _ => rfl⟩
  · intro r s hm hs
    have h := app_pass r s hs
    rw [h.2.2]
    exact dispatch_get_unlogged r s hm

/-- Witness for C3 at the concrete POST /detetive on a fresh state, and
with the GET non-interference part applied to the valid /imc request. -/
theorem method_denylist_spec_witness :
    ((app postReq emptyState).1.status = 404 ∧
      (app postReq emptyState).2.fileLog = [mkEntry postReq] ∧
      (app postReq emptyState).1.body = Body.empty) ∧
      (app imcReq emptyState).2.fileLog = [] := by
  have h1 := method_denylist_spec.1 postReq emptyState (by decide)
  have h2 := method_denylist_spec.2 imcReq emptyState rfl (by decide)
  exact ⟨⟨h1.1, h1.2.1, h1.2.2.2 (by decide)⟩, h2.1⟩

end ApiIMC

namespace ApiIMC

/-- C4: on GET /imc (not pattern-blocked), whenever the `valor` query
parameter is missing, non-numeric, not greater than 0, or greater than
200, the response is a 422 and neither the `calcular_imc` handler nor the
classifier is ever invoked (the traces are unchanged). -/
theorem only_valor_422 :
    ∀ (r : Request) (s : LogState),
      r.method = "GET" → r.path = "/imc" →
      suspicious_search (urlString r) = false →
      (getParam r.queryParams "valor" = none ∨
        (∃ str, getParam r.queryParams "valor" = some str ∧
          parseFloat? str = none) ∨
        (∃ str v, getParam r.queryParams "valor" = some str ∧
          parseFloat? str = some v ∧ ¬(0 < v ∧ v ≤ 200))) →
      (app r s).1.status = 422 ∧
      (app r s).1.body = Body.validationError ∧
      (app r s).2.classifiedValues = s.classifiedValues ∧
      (app r s).2.handlersRun = s.handlersRun := by
  intro r s hm hp hs hbad
  have h := app_pass r s hs
  have he : only_valor r.queryParams = Except.error () := by
    unfold only_valor
    rcases hbad with h0 | ⟨str, h1, h2⟩ | ⟨str, v, h1, h2, h3⟩
    · rw [h0]
    · rw [h1]
      simp only [h2]
    · rw [h1]
      simp only [h2, if_neg h3]
  rw [h.1, h.2.1, h.2.2, dispatch_imc r s hm hp, he]
  exact ⟨rfl, rfl, rfl, rfl⟩

/-- Witness for C4 at the concrete GET /imc?valor=201 on a fresh state. -/
theorem only_valor_422_witness :
    (app imcBadReq emptyState).1.status = 422 ∧
      (app imcBadReq emptyState).2.classifiedValues = [] := by
  have h := only_valor_422 imcBadReq emptyState rfl rfl (by decide)
    (Or.inr (Or.inr ⟨"201", 201, rfl,
      by norm_num +decide [parseFloat?, splitDot, splitDotAux, digitsVal?, digitVal?],
      by norm_num⟩))
  exact ⟨h.1, h.2.2.1⟩

/-- C5: a plain GET /health returns 200 with body `{status: "ok"}` exactly
when the caller's address is the loopback address "127.0.0.1", and returns
404 for every other caller. -/
theorem health_check_spec :
    ∀ (r : Request) (s : LogState),
      r.method = "GET" → r.path = "/health" →
      suspicious_search (urlString r) = false →
      (((app r s).1.status = 200 ∧ (app r s).1.body = Body.healthOk) ↔
        r.clientHost = "127.0.0.1") ∧
      (r.clientHost ≠ "127.0.0.1" → (app r s).1.status = 404) := by
  intro r s hm hp hs
  have h := app_pass r s hs
  rw [h.1, h.2.1, dispatch_health r s hm hp]
  unfold health_check
  by_cases hc : r.clientHost = "127.0.0.1" <;> simp [hc]

/-- Witness for C5 at the two concrete callers 127.0.0.1 (gets 200 and the
ok body) and 8.8.8.8 (gets 404). -/
theorem health_check_spec_witness :
    ((app healthLocalReq emptyState).1.status = 200 ∧
      (app healthLocalReq emptyState).1.body = Body.healthOk) ∧
      (app healthRemoteReq emptyState).1.status = 404 := by
  have h1 := health_check_spec healthLocalReq emptyState rfl rfl (by decide)
  have h2 := health_check_spec healthRemoteReq emptyState rfl rfl (by decide)
  exact ⟨h1.1.mpr rfl, h2.2 (by decide)⟩

end ApiIMC

namespace ApiIMC

/-- C6: every response of the app carries the three hardening headers
X-Content-Type-Options: nosniff, X-Frame-Options: DENY and
Referrer-Policy: no-referrer — including the middleware's short-circuit
404 and the catch-all route's 404, since `security_headers` is the
outermost middleware. -/
theorem security_headers_always :
    ∀ (r : Request) (s : LogState),
      getHeader (app r s).1.headers "X-Content-Type-Options" = some "nosniff" ∧
      getHeader (app r s).1.headers "X-Frame-Options" = some "DENY" ∧
      getHeader (app r s).1.headers "Referrer-Policy" = some "no-referrer" := by
  intro r s
  have h : (app r s).1.headers =
      setHeader
        (setHeader
          (setHeader ((block_scanners route_dispatch) r s).1.headers
            "X-Content-Type-Options" "nosniff")
          "X-Frame-Options" "DENY")
        "Referrer-Policy" "no-referrer" := rfl
  rw [h, inner_headers_nil r s]
  simp [setHeader, getHeader]

end ApiIMC

namespace ApiIMC

/-- C8: for a GET /imc (not pattern-blocked) whose `valor` parameter
parses to a value v with 0 < v ≤ 200, the app returns 200 with exactly the
body fields imc (echoing v), classificacao and obesidade_grau as computed
by the classifier. -/
theorem calcular_imc_ok :
    ∀ (r : Request) (s : LogState) (str : String) (v : ℚ),
      r.method = "GET" → r.path = "/imc" →
      suspicious_search (urlString r) = false →
      getParam r.queryParams "valor" = some str →
      parseFloat? str = some v → 0 < v → v ≤ 200 →
      (app r s).1.status = 200 ∧
      (app r s).1.body =
        Body.imcResult v (classificar_imc v).classificacao
          (classificar_imc v).obesidade_grau := by
  intro r s str v hm hp hs hg hparse h0 h200
  have h := app_pass r s hs
  have hok : only_valor r.queryParams = Except.ok v := by
    unfold only_valor
    rw [hg]
    simp only [hparse, if_pos (And.intro h0 h200)]
  rw [h.1, h.2.1, dispatch_imc r s hm hp, hok]
  exact ⟨rfl, rfl⟩

/-- Witness for C8: GET /imc?valor=25.5 returns 200 with body
imc 25.5, classificacao "Sobrepeso", obesidade_grau 1. -/
theorem calcular_imc_ok_witness :
    (app imcReq emptyState).1.status = 200 ∧
      (app imcReq emptyState).1.body =
        Body.imcResult (51 / 2) "Sobrepeso" 1 := by
  have h := calcular_imc_ok imcReq emptyState "25.5" (51 / 2) rfl rfl
    (by decide) rfl
    (by norm_num +decide [parseFloat?, splitDot, splitDotAux, digitsVal?, digitVal?])
    (by norm_num) (by norm_num)
  refine ⟨h.1, ?_⟩
  rw [h.2]
  norm_num [classificar_imc]

/-- C9: the two unlogged rejection paths — GET / carrying a query
parameter, and GET /health from a non-loopback caller (both not
pattern-blocked) — return 404 and leave the audit log file and the console
unchanged. -/
theorem unlogged_rejections :
    (∀ (r : Request) (s : LogState),
      r.method = "GET" → r.path = "/" → r.queryParams ≠ [] →
      suspicious_search (urlString r) = false →
      (app r s).1.status = 404 ∧ (app r s).2.fileLog = s.fileLog ∧
        (app r s).2.console = s.console) ∧
    (∀ (r : Request) (s : LogState),
      r.method = "GET" → r.path = "/health" → r.clientHost ≠ "127.0.0.1" →
      suspicious_search (urlString r) = false →
      (app r s).1.status = 404 ∧ (app r s).2.fileLog = s.fileLog ∧
        (app r s).2.console = s.console) := by
  constructor
  · intro r s hm hp hq hs
    have h := app_pass r s hs
    have hlog := dispatch_get_unlogged r s hm
    rw [h.1, h.2.2, dispatch_root r s hm hp] at *
    obtain ⟨a, t, hq'⟩ := List.exists_cons_of_ne_nil hq
    refine ⟨?_, hlog.1, hlog.2⟩
    unfold root
    rw [hq']
    rfl
  · intro r s hm hp hc hs
    have h := app_pass r s hs
    have hlog := dispatch_get_unlogged r s hm
    rw [h.1, h.2.2, dispatch_health r s hm hp] at *
    refine ⟨?_, hlog.1, hlog.2⟩
    unfold health_check
    rw [if_pos hc]

/-- Witness for C9 at the concrete GET /?foo=bar and the remote GET
/health, both on a fresh state. -/
theorem unlogged_rejections_witness :
    ((app rootParamReq emptyState).1.status = 404 ∧
      (app rootParamReq emptyState).2.fileLog = []) ∧
      ((app healthRemoteReq emptyState).1.status = 404 ∧
        (app healthRemoteReq emptyState).2.console = []) := by
  have h1 := unlogged_rejections.1 rootParamReq emptyState rfl rfl (by decide) (by decide)
  have h2 := unlogged_rejections.2 healthRemoteReq emptyState rfl rfl (by decide) (by decide)
  exact ⟨⟨h1.1, h1.2.1⟩, ⟨h2.1, h2.2.2⟩⟩

end ApiIMC
